import Mathlib

/-!
# Verification of the ViPRA-UI pipeline (vipra-ui)

Shallow embedding of the repository's core modules and proofs of the
specification claims about them:

* `core/review_analysis.py` — sentence selection heuristic
* `core/gui_analysis.py`    — widget extraction and screenshot annotation
* `core/mllm_integration.py`— prompt construction and model-output parsing
* `app.py`                  — the request pipeline

Python strings are modelled as Lean `String`s (`List Char` underneath);
Python's `str.find`/`str.rfind`/slicing/`str.replace`/`str.strip`/
`str.split`/`int()` are embedded with their exact semantics (negative
indices, clamping, etc.).  Values produced by `json.loads` are modelled by
the inductive type `PyValue`; note that Python's `bool` is a subtype of
`int`, so `isinstance(x, (int, float))` is `True` for booleans — this is
modelled faithfully by `isinstance_int_float`.
-/

set_option autoImplicit false

namespace Vipra

/-- The character `\x7b` (opening curly brace). -/
def braceOpen : Char := Char.ofNat 123

/-- The character `\x7d` (closing curly brace). -/
def braceClose : Char := Char.ofNat 125

/-! ## Python string primitives -/

/-- Index of the first occurrence of `c` in `l`, counting from `i`;
`-1` when absent.  Models Python `str.find` for a 1-character needle. -/
def findCharAux (c : Char) : List Char → Int → Int
  | [], _ => -1
  | x :: t, i => if x = c then i else findCharAux c t (i + 1)

/-- Python `s.find(c)` for a single character `c`. -/
def pyFindChar (s : String) (c : Char) : Int :=
  findCharAux c s.data 0

/-- Index of the last occurrence of `c` in `l`, or `none`. -/
def lastIdxOf (c : Char) : List Char → Option Nat
  | [] => Option.none
  | x :: t =>
    match lastIdxOf c t with
    | Option.some i => Option.some (i + 1)
    | Option.none => if x = c then Option.some 0 else Option.none

/-- Python `s.rfind(c)` for a single character `c`: index of the last
occurrence, `-1` when absent. -/
def pyRfindChar (s : String) (c : Char) : Int :=
  match lastIdxOf c s.data with
  | Option.some i => (i : Int)
  | Option.none => -1

/-- Python slice `s[start:stop]` (step 1): negative indices count from the
end, both bounds are clamped to `[0, len]`. -/
def pySlice (s : String) (start stop : Int) : String :=
  let n : Int := (s.data.length : Int)
  let a : Int := if start < 0 then max (n + start) 0 else min start n
  let b : Int := if stop < 0 then max (n + stop) 0 else min stop n
  ⟨(s.data.drop a.toNat).take (b - a).toNat⟩

/-- One step of Python `str.replace`: with `fuel` bounding the scan,
replace each non-overlapping occurrence of `pat` (non-empty) by `rep`,
scanning left to right. -/
def replaceAux (pat rep : List Char) : Nat → List Char → List Char
  | 0, l => l
  | _ + 1, [] => []
  | fuel + 1, x :: t =>
    if pat.isPrefixOf (x :: t) then
      rep ++ replaceAux pat rep fuel ((x :: t).drop pat.length)
    else
      x :: replaceAux pat rep fuel t

/-- Python `s.replace(pat, rep)` for a non-empty `pat`. -/
def pyReplace (s pat rep : String) : String :=
  ⟨replaceAux pat.data rep.data s.data.length s.data⟩

/-- Python `s.strip(chars)`: remove leading and trailing characters that
belong to `chars`. -/
def pyStripChars (s chars : String) : String :=
  let inSet : Char → Bool := fun c => chars.data.contains c
  ⟨((s.data.dropWhile inSet).reverse.dropWhile inSet).reverse⟩

/-- Python whitespace (the set stripped by `str.strip()` with no
argument). -/
def isPyWs (c : Char) : Bool :=
  c = ' ' || c = '\t' || c = '\n' || c = '\r' || c = '\x0b' || c = '\x0c'

/-- Python `s.strip()` (whitespace strip). -/
def pyStripWs (s : String) : String :=
  ⟨((s.data.dropWhile isPyWs).reverse.dropWhile isPyWs).reverse⟩

/-- Python `s.split(sep)` for a 1-character separator: does not collapse
empty fields; `"".split(sep) = [""]`. -/
def splitOnCharAux (sep : Char) : List Char → List (List Char)
  | [] => [[]]
  | c :: t =>
    match splitOnCharAux sep t with
    | [] => [[c]]
    | h :: r => if c = sep then [] :: h :: r else (c :: h) :: r

/-- Python `s.split(sep)` for a single-character separator `sep`. -/
def pySplitChar (s : String) (sep : Char) : List String :=
  (splitOnCharAux sep s.data).map (fun l => ⟨l⟩)

/-- Digit-string value, `none` when the list is empty or contains a
non-digit. -/
def digitsToNat : List Char → Option Nat
  | [] => Option.none
  | l =>
    l.foldl
      (fun acc c =>
        match acc with
        | Option.none => Option.none
        | Option.some n => if c.isDigit then Option.some (n * 10 + (c.toNat - 48)) else Option.none)
      (Option.some 0)

/-- Python `int(s)` on a decimal literal: optional surrounding whitespace,
optional sign, at least one digit; anything else raises `ValueError`,
modelled as `none`. -/
def pyInt (s : String) : Option Int :=
  let l := (s.data.dropWhile isPyWs).reverse.dropWhile isPyWs |>.reverse
  match l with
  | '-' :: ds =>
    match digitsToNat ds with
    | Option.some n => Option.some (-(n : Int))
    | Option.none => Option.none
  | '+' :: ds =>
    match digitsToNat ds with
    | Option.some n => Option.some (n : Int)
    | Option.none => Option.none
  | ds =>
    match digitsToNat ds with
    | Option.some n => Option.some (n : Int)
    | Option.none => Option.none

/-! ## Python values produced by `json.loads`

`json.loads` maps JSON values to Python objects: `null → None`,
`true/false → bool`, integer literals → `int`, other number literals →
`float` (modelled exactly as a rational), strings → `str`, arrays →
`list`, objects → `dict` (insertion-ordered, a repeated key overwrites
the value in place). -/

/-- A Python value as produced by `json.loads`. -/
inductive PyValue where
  | pyNone
  | bool (b : Bool)
  | int (n : Int)
  | float (q : ℚ)
  | str (s : String)
  | list (xs : List PyValue)
  | dict (kvs : List (String × PyValue))

/-- Python `d[k] = v` on an insertion-ordered dict: overwrite in place
when the key exists, append otherwise. -/
def dictInsert (d : List (String × PyValue)) (k : String) (v : PyValue) :
    List (String × PyValue) :=
  match d with
  | [] => [(k, v)]
  | (k0, v0) :: rest =>
    if k0 = k then (k0, v) :: rest else (k0, v0) :: dictInsert rest k v

/-- Python `k in d` on a dict. -/
def dictHasKey (d : List (String × PyValue)) (k : String) : Bool :=
  d.any (fun kv => kv.1 = k)

/-- Python `d[k]` on a dict whose key is known to be present (defaults to
`PyValue.pyNone` otherwise; the code only indexes after a `k in d`
check). -/
def dictGet (d : List (String × PyValue)) (k : String) : PyValue :=
  match d.find? (fun kv => kv.1 = k) with
  | Option.some kv => kv.2
  | Option.none => PyValue.pyNone

/-- Python `d.get(k, dflt)` on a dict. -/
def dictGetD (d : List (String × PyValue)) (k : String) (dflt : PyValue) : PyValue :=
  match d.find? (fun kv => kv.1 = k) with
  | Option.some kv => kv.2
  | Option.none => dflt

/-- Python `isinstance(v, (int, float))`.  `bool` is a subclass of `int`
in Python, so booleans pass this check. -/
def isinstance_int_float : PyValue → Bool
  | PyValue.int _ => true
  | PyValue.float _ => true
  | PyValue.bool _ => true
  | _ => false

/-- Python `isinstance(v, str)`. -/
def isinstance_str : PyValue → Bool
  | PyValue.str _ => true
  | _ => false

/-! ## JSON parsing (model of `json.loads`)

A recursive-descent parser over `List Char`, fuelled by the input length.
It implements the JSON grammar as accepted by Python's strict-mode
`json.loads` on the fragment exercised here: objects, arrays,
double-quoted strings with the standard escapes, numbers
(`-? (0|[1-9][0-9]*) (.d+)? ([eE][+-]?d+)?`), `true`, `false`, `null`;
unescaped control characters in strings are rejected; trailing data after
the top-level value (other than whitespace) is rejected. -/

/-- JSON whitespace. -/
def isJsonWs (c : Char) : Bool :=
  c = ' ' || c = '\t' || c = '\n' || c = '\r'

/-- Drop leading JSON whitespace. -/
def skipWs : List Char → List Char
  | [] => []
  | c :: t => if isJsonWs c then skipWs t else c :: t

/-- Value of a hexadecimal digit. -/
def hexVal (c : Char) : Option Nat :=
  if c.isDigit then Option.some (c.toNat - 48)
  else if 'a' ≤ c ∧ c ≤ 'f' then Option.some (c.toNat - 97 + 10)
  else if 'A' ≤ c ∧ c ≤ 'F' then Option.some (c.toNat - 65 + 10)
  else Option.none

/-- Body of a JSON string after the opening quote: returns the decoded
content and the remainder after the closing quote. -/
def parseStrBody : Nat → List Char → Option (List Char × List Char)
  | 0, _ => Option.none
  | _ + 1, [] => Option.none
  | fuel + 1, c :: t =>
    if c = '"' then Option.some ([], t)
    else if c = '\\' then
      match t with
      | [] => Option.none
      | e :: t2 =>
        if e = 'u' then
          match t2 with
          | h1 :: h2 :: h3 :: h4 :: t3 =>
            match hexVal h1, hexVal h2, hexVal h3, hexVal h4 with
            | Option.some a, Option.some b, Option.some c', Option.some d =>
              match parseStrBody fuel t3 with
              | Option.some (body, rest) =>
                Option.some (Char.ofNat (((a * 16 + b) * 16 + c') * 16 + d) :: body, rest)
              | Option.none => Option.none
            | _, _, _, _ => Option.none
          | _ => Option.none
        else
          match
            (if e = '"' then Option.some '"'
             else if e = '\\' then Option.some '\\'
             else if e = '/' then Option.some '/'
             else if e = 'b' then Option.some '\x08'
             else if e = 'f' then Option.some '\x0c'
             else if e = 'n' then Option.some '\n'
             else if e = 'r' then Option.some '\r'
             else if e = 't' then Option.some '\t'
             else Option.none) with
          | Option.some d =>
            match parseStrBody fuel t2 with
            | Option.some (body, rest) => Option.some (d :: body, rest)
            | Option.none => Option.none
          | Option.none => Option.none
    else if c.toNat < 32 then Option.none
    else
      match parseStrBody fuel t with
      | Option.some (body, rest) => Option.some (c :: body, rest)
      | Option.none => Option.none

/-- Digits read greedily from the front. -/
def spanDigits (l : List Char) : List Char × List Char :=
  (l.takeWhile Char.isDigit, l.dropWhile Char.isDigit)

/-- Natural-number value of a non-empty digit list. -/
def natOfDigits (l : List Char) : Nat :=
  l.foldl (fun n c => n * 10 + (c.toNat - 48)) 0

/-- A JSON number starting at the front of `l`: returns the value and the
remainder.  Integer literals (no fraction, no exponent) become
`PyValue.int`, all others `PyValue.float`. -/
def parseNumber (l : List Char) : Option (PyValue × List Char) :=
  let (neg, l1) := match l with
    | '-' :: t => (true, t)
    | _ => (false, l)
  let intPart : Option (List Char × List Char) :=
    match l1 with
    | '0' :: t => Option.some (['0'], t)
    | c :: _ =>
      if c.isDigit then
        let (ds, rest) := spanDigits l1
        Option.some (ds, rest)
      else Option.none
    | [] => Option.none
  match intPart with
  | Option.none => Option.none
  | Option.some (ids, l2) =>
    let fracPart : Option (List Char × List Char) :=
      match l2 with
      | '.' :: t =>
        let (ds, rest) := spanDigits t
        if ds.isEmpty then Option.none else Option.some (ds, rest)
      | _ => Option.some ([], l2)
    match fracPart with
    | Option.none => Option.none
    | Option.some (fds, l3) =>
      let expPart : Option (Int × List Char) :=
        match l3 with
        | 'e' :: t | 'E' :: t =>
          let (esign, t1) := match t with
            | '-' :: t' => ((-1 : Int), t')
            | '+' :: t' => ((1 : Int), t')
            | _ => ((1 : Int), t)
          let (ds, rest) := spanDigits t1
          if ds.isEmpty then Option.none
          else Option.some (esign * (natOfDigits ds : Int), rest)
        | _ => Option.some (0, l3)
      match expPart with
      | Option.none => Option.none
      | Option.some (e, l4) =>
        let isFloat : Bool := !fds.isEmpty || !(l3 == l4)
        let mantissa : Int :=
          (if neg then -1 else 1) *
            ((natOfDigits ids : Int) * (10 : Int) ^ fds.length + (natOfDigits fds : Int))
        let scale : Int := e - (fds.length : Int)
        if isFloat then
          let q : ℚ :=
            if 0 ≤ scale then (mantissa : ℚ) * (10 : ℚ) ^ scale.toNat
            else (mantissa : ℚ) / (10 : ℚ) ^ (-scale).toNat
          Option.some (PyValue.float q, l4)
        else
          Option.some (PyValue.int mantissa, l4)

mutual

/-- A JSON value starting at the front of the input (after leading
whitespace): returns the value and the remainder. -/
def parseValue : Nat → List Char → Option (PyValue × List Char)
  | 0, _ => Option.none
  | fuel + 1, l =>
    match skipWs l with
    | [] => Option.none
    | c :: t =>
      if c = braceOpen then parseObjFields fuel [] (skipWs t)
      else if c = '[' then parseArrElems fuel [] (skipWs t)
      else if c = '"' then
        match parseStrBody fuel t with
        | Option.some (body, rest) => Option.some (PyValue.str ⟨body⟩, rest)
        | Option.none => Option.none
      else if ['t', 'r', 'u', 'e'].isPrefixOf (c :: t) then
        Option.some (PyValue.bool true, (c :: t).drop 4)
      else if ['f', 'a', 'l', 's', 'e'].isPrefixOf (c :: t) then
        Option.some (PyValue.bool false, (c :: t).drop 5)
      else if ['n', 'u', 'l', 'l'].isPrefixOf (c :: t) then
        Option.some (PyValue.pyNone, (c :: t).drop 4)
      else parseNumber (c :: t)

/-- Fields of a JSON object, positioned after the opening brace (leading
whitespace already skipped); `acc` holds the fields read so far. -/
def parseObjFields : Nat → List (String × PyValue) → List Char →
    Option (PyValue × List Char)
  | 0, _, _ => Option.none
  | _ + 1, acc, [] =>
    match acc with
    | _ => Option.none
  | fuel + 1, acc, c :: t =>
    if c = braceClose ∧ acc.isEmpty then Option.some (PyValue.dict [], t)
    else if c = '"' then
      match parseStrBody fuel t with
      | Option.none => Option.none
      | Option.some (key, r1) =>
        match skipWs r1 with
        | ':' :: r2 =>
          match parseValue fuel r2 with
          | Option.none => Option.none
          | Option.some (v, r3) =>
            let acc' := dictInsert acc ⟨key⟩ v
            match skipWs r3 with
            | ',' :: r4 => parseObjFields fuel acc' (skipWs r4)
            | d :: r4 =>
              if d = braceClose then Option.some (PyValue.dict acc', r4)
              else Option.none
            | [] => Option.none
        | _ => Option.none
    else Option.none

/-- Elements of a JSON array, positioned after the opening bracket
(leading whitespace already skipped). -/
def parseArrElems : Nat → List PyValue → List Char → Option (PyValue × List Char)
  | 0, _, _ => Option.none
  | _ + 1, _, [] => Option.none
  | fuel + 1, acc, c :: t =>
    if c = ']' ∧ acc.isEmpty then Option.some (PyValue.list [], t)
    else
      match parseValue fuel (c :: t) with
      | Option.none => Option.none
      | Option.some (v, r1) =>
        match skipWs r1 with
        | ',' :: r2 => parseArrElems fuel (acc ++ [v]) (skipWs r2)
        | ']' :: r2 => Option.some (PyValue.list (acc ++ [v]), r2)
        | _ => Option.none

end

/-- Python `json.loads`: parse one JSON value, allowing only whitespace
around it; any other outcome raises `JSONDecodeError`, modelled as
`none`. -/
def jsonLoads (s : String) : Option PyValue :=
  match parseValue (s.data.length + 1) s.data with
  | Option.some (v, rest) =>
    if (skipWs rest).isEmpty then Option.some v else Option.none
  | Option.none => Option.none

/-! ## `core/mllm_integration.py` -/

/-- Template text before the quoted review snippet
(`MLLMAnalyzer.construct_prompt`, the f-string up to `"{review_snippet}"`). -/
def promptPart1 : String :=
  "\nAnalyze the provided mobile UI screenshot to determine if there is a mismatch between the visual interface and the user's feedback.\n\n**User Review Snippet:**\n"

/-- Template text between the quoted review snippet and `{widget_str}`. -/
def promptPart2 : String :=
  "\n\n**Annotated Widget Details:**\n(Refer to the numbered widgets in the image)\n"

/-- Template text after `{widget_str}` (task instructions and the JSON
schema block; the braces of the schema block are literal text). -/
def promptPart3 : String :=
  "\n\n**Your Task:**\n1.  **Identify the User's Core Complaint:** What specific UI element and problem is the user describing?\n2.  **Ground the Complaint:** Locate the relevant widget in the image and its details using the provided annotations.\n3.  **Analyze for Mismatch:** Compare the user's complaint with the visual and structural evidence. Does the UI imply a functionality that the user reports as broken or missing?\n4.  **Provide a Conclusion in JSON format.**\n\n**JSON Output Format:**\nPlease provide your final analysis ONLY in the following JSON format. Do not add any text before or after the JSON block.\n\x7b\n  \"mismatch_detected\": \"Yes\" or \"No\",\n  \"confidence_score\": <A float between 0.0 and 1.0>,\n  \"mismatch_type\": \"<'Non-Functional Element', 'Feature Misrepresentation', 'Visual Glitch', or 'None'>\",\n  \"rationale\": \"<A concise, step-by-step explanation of your reasoning. Start by identifying the user's claim, then ground it to a widget, and finally explain why it is or is not a mismatch.>\",\n  \"relevant_widget_id\": <The number of the most relevant widget, or null>\n\x7d\n"

/-- `MLLMAnalyzer.construct_prompt` (mllm_integration.py lines 51-92):
`widget_str` is the newline-join of `widget_details`, or the literal
fallback when the list is empty (Python truthiness of a list); the
f-string template embeds the snippet between double quotes and the
widget string on its own line. -/
def construct_prompt (widget_details : List String) (review_snippet : String) : String :=
  let widget_str :=
    if widget_details.isEmpty then "No widget details extracted."
    else String.intercalate "\n" widget_details
  promptPart1 ++ "\"" ++ review_snippet ++ "\"" ++ promptPart2 ++ widget_str ++ promptPart3

/-- The slice `generated_text[generated_text.find(oBrace) :
generated_text.rfind(cBrace)+1]` (mllm_integration.py line 158). -/
def jsonCandidate (generated_text : String) : String :=
  pySlice generated_text (pyFindChar generated_text braceOpen)
    (pyRfindChar generated_text braceClose + 1)

/-- The required keys checked by `parse_llm_output`
(mllm_integration.py line 166). -/
def requiredKeys : List String :=
  ["mismatch_detected", "confidence_score", "mismatch_type", "rationale"]

/-- The error record built in the `except` arm of `parse_llm_output`
(mllm_integration.py lines 181-184). -/
def parseErrorRecord (generated_text : String) : PyValue :=
  PyValue.dict
    [("error", PyValue.str "Failed to parse a valid JSON response from the MLLM."),
     ("raw_output", PyValue.str generated_text)]

/-- Python `s.lower()` (`Char.toLower` is ASCII-only, which covers every
string the pipeline compares after lowering). -/
def pyLower (s : String) : String :=
  ⟨s.data.map Char.toLower⟩

/-- The check `isinstance(md, str) and md.lower() in ["yes", "no"]`
(mllm_integration.py line 171). -/
def mismatchDetectedValid : PyValue → Bool
  | PyValue.str s => pyLower s = "yes" || pyLower s = "no"
  | _ => false

/-- `MLLMAnalyzer.parse_llm_output` (mllm_integration.py lines 145-184).
The `try` block slices out the JSON candidate, raises `ValueError` on an
empty slice, parses it with `json.loads`, checks the four required keys,
checks `mismatch_detected` and `confidence_score`, and returns the parsed
dict unchanged; every raised `JSONDecodeError`/`ValueError`/`TypeError`
lands in the `except` arm, which returns `parseErrorRecord`.  When the
parsed value is not a dict, the `key in parsed_json` membership test or
the `parsed_json[key]` indexing raises `TypeError`, which the same arm
catches — so a non-dict parse also produces the error record. -/
def parse_llm_output (generated_text : String) : PyValue :=
  let json_str := jsonCandidate generated_text
  if json_str = "" then parseErrorRecord generated_text
  else
    match jsonLoads json_str with
    | Option.none => parseErrorRecord generated_text
    | Option.some (PyValue.dict d) =>
      if !(requiredKeys.all (dictHasKey d)) then parseErrorRecord generated_text
      else if !(mismatchDetectedValid (dictGet d "mismatch_detected")) then
        parseErrorRecord generated_text
      else if !(isinstance_int_float (dictGet d "confidence_score")) then
        parseErrorRecord generated_text
      else PyValue.dict d
    | Option.some _ => parseErrorRecord generated_text

/-- Events performed by `analyze_ui_review_pair` after its early-return
guard, in order: `Image.open`, `construct_prompt`, `model.generate`. -/
inductive MEvent where
  | openImage (path : String)
  | buildPrompt
  | invokeModel
  deriving DecidableEq

/-- The analyzer's external collaborators: `Image.open(...).convert("RGB")`
(`none` models `FileNotFoundError`) and the
processor/`model.generate`/`batch_decode` step (`Except.error e` models a
raised exception with text `e`, `Except.ok` the decoded raw text). -/
structure MllmEnv where
  decodeImage : String → Option Unit
  generate : String → Except String String

/-- Python truthiness of an optional string (`not image_path`). -/
def optStrFalsy : Option String → Bool
  | Option.none => true
  | Option.some s => s = ""

/-- `MLLMAnalyzer.analyze_ui_review_pair` (mllm_integration.py lines
94-143), with an event trace recording which external effects ran.
Mirrors the source order: the `not image_path or not review_snippet`
guard returns the error record immediately; then `Image.open` (a
`FileNotFoundError` returns the not-found record); then
`construct_prompt` and the `<MORE_DETAILED_OCR>` task prefix; then
generation (an exception returns the generation-failed record); then
`parse_llm_output` on the decoded text. -/
def analyze_ui_review_pair (env : MllmEnv) (image_path : Option String)
    (widget_details : List String) (review_snippet : String) :
    PyValue × List MEvent :=
  if optStrFalsy image_path || review_snippet = "" then
    (PyValue.dict [("error", PyValue.str "Missing image path or review snippet.")], [])
  else
    let path := image_path.getD ""
    match env.decodeImage path with
    | Option.none =>
      (PyValue.dict [("error", PyValue.str ("Annotated image not found at " ++ path))],
       [MEvent.openImage path])
    | Option.some _ =>
      let task_prompt := construct_prompt widget_details review_snippet
      let final_prompt := "<MORE_DETAILED_OCR>" ++ task_prompt
      match env.generate final_prompt with
      | Except.error e =>
        (PyValue.dict
          [("error", PyValue.str "MLLM generation failed."),
           ("details", PyValue.str e)],
         [MEvent.openImage path, MEvent.buildPrompt, MEvent.invokeModel])
      | Except.ok generated_text =>
        (parse_llm_output generated_text,
         [MEvent.openImage path, MEvent.buildPrompt, MEvent.invokeModel])

/-! ## `core/review_analysis.py` -/

/-- Python `sub in s` (substring containment). -/
def listContainsSub (hay needle : List Char) : Bool :=
  needle.isPrefixOf hay ||
    match hay with
    | [] => false
    | _ :: t => listContainsSub t needle

/-- Python `sub in s` on strings. -/
def pyInStr (sub s : String) : Bool :=
  listContainsSub s.data sub.data

/-- The fixed keyword list of `extract_functional_snippets`
(review_analysis.py lines 42-45). -/
def keywords : List String :=
  ["bug", "crash", "error", "broken", "glitch", "issue", "stuck",
   "not working", "doesn't work", "fails to", "unable to", "can't"]

/-- The `for sent in sentences` loop of `extract_functional_snippets`
(review_analysis.py lines 47-49): the first sentence containing any
keyword, or `none`. -/
def findComplaintSentence : List String → Option String
  | [] => Option.none
  | sent :: rest =>
    if keywords.any (fun kw => pyInStr kw sent) then Option.some sent
    else findComplaintSentence rest

/-- `extract_functional_snippets` (review_analysis.py lines 28-51):
empty input returns `""`; otherwise the scan loop's result, defaulting to
`sentences[0]`. -/
def extract_functional_snippets (sentences : List String) : String :=
  if sentences.isEmpty then ""
  else
    match findComplaintSentence sentences with
    | Option.some sent => sent
    | Option.none => sentences.headD ""

/-- `preprocess_and_segment_review` (review_analysis.py lines 12-26).
The spaCy pipeline is an external collaborator, modelled as an oracle
`nlp : Option (String → List String)` (`none` when the model failed to
load); the source lowercases and strips the text, runs the oracle, and
strips each sentence, dropping sentences that strip to empty. -/
def preprocess_and_segment_review (nlp : Option (String → List String))
    (text : String) : List String :=
  match nlp with
  | Option.none => []
  | Option.some sents =>
    if text = "" then []
    else ((sents (pyStripWs (pyLower text))).map pyStripWs).filter (fun s => s ≠ "")

/-! ## `core/gui_analysis.py` -/

/-- A UI-element record as built by `parse_xml_hierarchy` (a Python dict
with the five fixed keys `class`, `text`, `resource-id`, `clickable`,
`bounds`). -/
structure Widget where
  className : String
  text : String
  resourceId : String
  clickable : String
  bounds : String
  deriving DecidableEq

mutual

/-- A node of the view-hierarchy XML: attributes and children. -/
inductive XmlNode where
  | mk (attrs : List (String × String)) (children : XmlForest)

/-- A list of XML sibling nodes. -/
inductive XmlForest where
  | nil
  | cons (n : XmlNode) (f : XmlForest)

end

/-- `node.attrib.get(k, dflt)`: XML attributes are a dict with unique
keys, modelled as an association list. -/
def attribGet (attrs : List (String × String)) (k dflt : String) : String :=
  match attrs.find? (fun kv => kv.1 = k) with
  | Option.some kv => kv.2
  | Option.none => dflt

/-- `k in node.attrib`. -/
def hasAttr (attrs : List (String × String)) (k : String) : Bool :=
  attrs.any (fun kv => kv.1 = k)

/-- Attributes of a node. -/
def XmlNode.attrs : XmlNode → List (String × String)
  | XmlNode.mk a _ => a

mutual

/-- `root.iter()`: the node itself followed by its descendants, in
document (depth-first preorder) order. -/
def iterNodes : XmlNode → List XmlNode
  | XmlNode.mk attrs children => XmlNode.mk attrs children :: iterForest children

/-- `iter()` over a sibling list. -/
def iterForest : XmlForest → List XmlNode
  | XmlForest.nil => []
  | XmlForest.cons n f => iterNodes n ++ iterForest f

end

/-- The dict appended for a bounds-carrying node
(gui_analysis.py lines 36-42). -/
def mkWidget (n : XmlNode) : Widget :=
  { className := attribGet n.attrs "class" "N/A"
    text := attribGet n.attrs "text" ""
    resourceId := attribGet n.attrs "resource-id" ""
    clickable := attribGet n.attrs "clickable" "false"
    bounds := attribGet n.attrs "bounds" "" }

/-- The fate of the XML file argument: `missing` models the
`os.path.exists` check failing, `unparseable` models `ET.ParseError`,
`parsed` a successful `ET.parse`. -/
inductive XmlFile where
  | missing
  | unparseable
  | parsed (root : XmlNode)

/-- `parse_xml_hierarchy` (gui_analysis.py lines 12-43): a missing file
or a parse error yields `[]` (with a warning); otherwise the loop over
`root.iter()` appends one record per node carrying a `bounds`
attribute. -/
def parse_xml_hierarchy (xml_file : XmlFile) : List Widget :=
  match xml_file with
  | XmlFile.missing => []
  | XmlFile.unparseable => []
  | XmlFile.parsed root =>
    (iterNodes root).foldl
      (fun elements node =>
        if hasAttr node.attrs "bounds" then elements ++ [mkWidget node] else elements)
      []

/-- The bounds-parsing block of the annotation loop (gui_analysis.py
lines 76-79): `el['bounds'].replace('][', ',').strip('[]').split(',')`,
each field through `int()`, then unpacked as a 4-tuple; any `ValueError`
is `none`. -/
def parseBounds (bounds : String) : Option (Int × Int × Int × Int) :=
  let coords_str := pyStripChars (pyReplace bounds "][" ",") "[]"
  match (pySplitChar coords_str ',').mapM pyInt with
  | Option.some [x1, y1, x2, y2] => Option.some (x1, y1, x2, y2)
  | _ => Option.none

/-- A rectangle-plus-label-tag drawn on the screenshot by one loop
iteration (gui_analysis.py lines 81-89): green (`clickable = true`) or
blue box from `(x1, y1)` to `(x2, y2)`, tagged with the current label
number. -/
structure DrawnBox where
  label : Nat
  x1 : Int
  y1 : Int
  x2 : Int
  y2 : Int
  clickable : Bool
  deriving DecidableEq

/-- Modelled from the spec: the per-widget description string of an
`AnnotatedWidget` (spec §3, "label N: class=..., text=..., clickable=...");
the append that builds it lies in the truncated tail of
`annotate_screenshot` in gui_analysis.py. -/
def describeWidget (label : Nat) (w : Widget) : String :=
  "label " ++ toString label ++ ": class=" ++ w.className ++ ", text=" ++ w.text ++
    ", clickable=" ++ w.clickable

/-- Modelled from the spec: the annotation loop of `annotate_screenshot`.
The selection test, bounds parsing, colour choice and drawing are source
(gui_analysis.py lines 65-89); the source file is truncated after the
`cv2.putText` call, so the loop tail — appending the widget description,
incrementing `label_counter`, and the `except` arm that skips a widget
with unparseable bounds silently (spec §4.2) — is modelled from the
spec.  Returns the description strings and the drawn boxes, in order. -/
def annotateLoop : Nat → List Widget → List String × List DrawnBox
  | _, [] => ([], [])
  | label_counter, el :: rest =>
    let is_clickable := el.clickable = "true"
    let has_text := el.text ≠ ""
    if is_clickable || has_text then
      match parseBounds el.bounds with
      | Option.some (x1, y1, x2, y2) =>
        let box : DrawnBox :=
          { label := label_counter, x1 := x1, y1 := y1, x2 := x2, y2 := y2,
            clickable := is_clickable }
        let (details, boxes) := annotateLoop (label_counter + 1) rest
        (describeWidget label_counter el :: details, box :: boxes)
      | Option.none => annotateLoop label_counter rest
    else annotateLoop label_counter rest

/-- Modelled from the spec: `annotate_screenshot` (gui_analysis.py lines
45-89 plus the truncated tail).  The two failure guards returning `None`
— missing file (`os.path.exists`) and unreadable image (`cv2.imread`
returning `None`) — are source lines 56-63, with the file system and
image decoder as oracles; the success return (the saved annotated image
path paired with the ordered description strings, spec §4.2) lies in the
truncated tail and is modelled from the spec, with the saved path some
non-empty path derived from the input path. -/
def annotate_screenshot (fileExists imreadOk : String → Bool)
    (image_path : String) (elements : List Widget) :
    Option (String × List String) :=
  if !fileExists image_path then Option.none
  else if !imreadOk image_path then Option.none
  else Option.some ("annotated_" ++ image_path, (annotateLoop 1 elements).1)

/-! ## `app.py` -/

/-- Outcome of a `run_vipra_ui_analysis` request: a `gr.Error` raised
deliberately, an uncaught Python exception escaping the handler, or a
successful return of the annotated image path and the analysis dict. -/
inductive GrOutcome where
  | grError (msg : String)
  | pyException (excType msg : String)
  | success (imagePath : String) (result : PyValue)

/-- Python `str()` as used when interpolating result fields into the
`gr.Error` message; every field interpolated there is a string by
construction. -/
def pyStrOf : PyValue → String
  | PyValue.str s => s
  | _ => ""

/-- The process environment of `app.py`: whether `MLLMAnalyzer.__init__`
succeeded, the file system and image decoder seen by
`annotate_screenshot`, the spaCy pipeline, and the model collaborators. -/
structure AppEnv where
  analyzerOk : Bool
  fileExists : String → Bool
  imreadOk : String → Bool
  nlp : Option (String → List String)
  mllm : MllmEnv

/-- `run_vipra_ui_analysis` (app.py lines 20-74).  Faithful to the source
order: the analyzer guard, the input guard, review segmentation and
snippet extraction, optional XML parsing, then
`annotated_image_path, widget_details = annotate_screenshot(...)` —
when `annotate_screenshot` returns `None` (missing/unreadable
screenshot), that tuple unpacking raises
`TypeError: cannot unpack non-iterable NoneType object` before the
`if not annotated_image_path` check on line 52 is ever reached; the
exception escapes the handler.  Otherwise the MLLM analysis runs and a
result dict carrying an `error` key is re-raised as a `gr.Error`. -/
def run_vipra_ui_analysis (env : AppEnv) (screenshot_path : Option String)
    (review_text : String) (xml_file : Option XmlFile) : GrOutcome :=
  if !env.analyzerOk then
    GrOutcome.grError "MLLM Analyzer is not available. Check server logs for initialization errors."
  else if screenshot_path.isNone || pyStripWs review_text = "" then
    GrOutcome.grError "Please upload a screenshot and provide a user review."
  else
    let path := screenshot_path.getD ""
    let sentences := preprocess_and_segment_review env.nlp review_text
    let functional_snippet := extract_functional_snippets sentences
    let ui_elements :=
      match xml_file with
      | Option.none => []
      | Option.some xf => parse_xml_hierarchy xf
    match annotate_screenshot env.fileExists env.imreadOk path ui_elements with
    | Option.none =>
      GrOutcome.pyException "TypeError" "cannot unpack non-iterable NoneType object"
    | Option.some (annotated_image_path, widget_details) =>
      if annotated_image_path = "" then
        GrOutcome.grError "Failed to process the uploaded screenshot. It might be corrupted."
      else
        let analysis_result :=
          (analyze_ui_review_pair env.mllm (Option.some annotated_image_path)
            widget_details functional_snippet).1
        match analysis_result with
        | PyValue.dict d =>
          if dictHasKey d "error" then
            GrOutcome.grError
              (pyStrOf (dictGetD d "error" (PyValue.str "An unknown error occurred.")) ++
                "\n\nRaw Output: " ++ pyStrOf (dictGetD d "raw_output" (PyValue.str "")))
          else GrOutcome.success annotated_image_path analysis_result
        | _ => GrOutcome.success annotated_image_path analysis_result

/-! ## Specification-side definitions

Definitions in this section follow the wording of the specification (and
of the claims derived from it), to be compared with the source-derived
functions above. -/

/-- A JSON-numeric value in the spec's sense: a JSON number, i.e. a
Python `int` or `float` — not a boolean. -/
def isNumericValue : PyValue → Bool
  | PyValue.int _ => true
  | PyValue.float _ => true
  | _ => false

/-- Key membership on an arbitrary Python value (false off dicts). -/
def pyHasKey : PyValue → String → Bool
  | PyValue.dict d, k => dictHasKey d k
  | _, _ => false

/-- `sub` occurs verbatim as a substring of `hay`. -/
def containsStr (hay sub : String) : Prop :=
  ∃ pre suf : List Char, hay.data = pre ++ sub.data ++ suf

/-- The Widget Extractor contract in the spec's words (spec §4.1): one
record per bounds-carrying node in document order, skipping nodes
without geometry, with attribute-absence defaults `class → "N/A"`,
`text → ""`, `resource_id → ""`, `clickable → "false"`; missing or
malformed input yields the empty sequence. -/
def widgetExtractorSpec (xml_file : XmlFile) : List Widget :=
  match xml_file with
  | XmlFile.missing => []
  | XmlFile.unparseable => []
  | XmlFile.parsed root =>
    ((iterNodes root).filter (fun n => hasAttr n.attrs "bounds")).map
      (fun n =>
        { className := attribGet n.attrs "class" "N/A"
          text := attribGet n.attrs "text" ""
          resourceId := attribGet n.attrs "resource-id" ""
          clickable := attribGet n.attrs "clickable" "false"
          bounds := attribGet n.attrs "bounds" "" })

/-- The Visual Annotator's selection test in the spec's words:
`clickable == true` OR non-empty text. -/
def qualifiesWidget (w : Widget) : Bool :=
  w.clickable = "true" || w.text ≠ ""

/-- The widgets that actually get annotated: qualifying widgets whose
bounds parse (spec §4.2 with its failure mode: a widget with unparseable
bounds is skipped). -/
def selectedWidgets (es : List Widget) : List Widget :=
  es.filter (fun w => qualifiesWidget w && (parseBounds w.bounds).isSome)

/-- The box drawn for a selected widget carrying the given label. -/
def boxOfLabeled (label : Nat) (w : Widget) : DrawnBox :=
  match parseBounds w.bounds with
  | Option.some (x1, y1, x2, y2) =>
    { label := label, x1 := x1, y1 := y1, x2 := x2, y2 := y2,
      clickable := w.clickable = "true" }
  | Option.none =>
    { label := label, x1 := 0, y1 := 0, x2 := 0, y2 := 0,
      clickable := w.clickable = "true" }

/-- The Visual Annotator contract in the spec's words: the selected
widgets, in original order, receive the sequential labels `1..N` and one
description string and one drawn box each. -/
def annotateSpec (es : List Widget) : List String × List DrawnBox :=
  let sel := selectedWidgets es
  (List.zipWith describeWidget (List.range' 1 sel.length) sel,
   List.zipWith boxOfLabeled (List.range' 1 sel.length) sel)

/-- The object shape named by the spec's response schema, with
`mismatch_detected` a string, arbitrary `confidence_score`,
`mismatch_type` and `rationale` values, and an optionally present
`relevant_widget_id`. -/
def mkAnalysisDict (md : String) (cs mt r : PyValue) (rid : Option PyValue) :
    List (String × PyValue) :=
  [("mismatch_detected", PyValue.str md), ("confidence_score", cs),
   ("mismatch_type", mt), ("rationale", r)] ++
    (match rid with
     | Option.some v => [("relevant_widget_id", v)]
     | Option.none => [])

/-! ## Concrete inputs used by the witnesses and counterexamples -/

/-- The raw model output of spec §8 property 4: prose around a complete
four-field JSON object. -/
def sureInput : String :=
  "Sure! \x7b\"mismatch_detected\":\"Yes\",\"confidence_score\":0.9,\"mismatch_type\":\"Visual Glitch\",\"rationale\":\"x\"\x7d thanks"

/-- The dict `json.loads` extracts from `sureInput`. -/
def sureDict : List (String × PyValue) :=
  [("mismatch_detected", PyValue.str "Yes"),
   ("confidence_score", PyValue.float (9 / 10 : ℚ)),
   ("mismatch_type", PyValue.str "Visual Glitch"),
   ("rationale", PyValue.str "x")]

/-- A raw model output whose JSON object lacks the `rationale` key. -/
def missingRationaleInput : String :=
  "\x7b\"mismatch_detected\":\"Yes\",\"confidence_score\":0.9,\"mismatch_type\":\"Visual Glitch\"\x7d"

/-- A raw model output whose `confidence_score` is the JSON boolean
`true` — not a JSON number. -/
def boolConfidenceInput : String :=
  "\x7b\"mismatch_detected\":\"yes\",\"confidence_score\":true,\"mismatch_type\":\"None\",\"rationale\":\"r\"\x7d"

/-- The dict `json.loads` extracts from `boolConfidenceInput`. -/
def boolConfidenceDict : List (String × PyValue) :=
  [("mismatch_detected", PyValue.str "yes"),
   ("confidence_score", PyValue.bool true),
   ("mismatch_type", PyValue.str "None"),
   ("rationale", PyValue.str "r")]

/-- A raw model output exercising the unvalidated fields: a numeric
`mismatch_type`, a `null` rationale and a list-valued
`relevant_widget_id`. -/
def lenientInput : String :=
  "\x7b\"mismatch_detected\":\"NO\",\"confidence_score\":1,\"mismatch_type\":12,\"rationale\":null,\"relevant_widget_id\":[]\x7d"

/-- A raw model output with no opening brace whose last character is a
closing brace. -/
def strayCloseInput : String := "abc\x7d"

/-- A raw model output containing neither brace. -/
def noBraceInput : String := "no json here"

/-- Whether a request outcome is a deliberately raised `gr.Error`. -/
def isGrError : GrOutcome → Bool
  | GrOutcome.grError _ => true
  | _ => false

/-- A widget that qualifies for annotation (clickable) but whose bounds
do not parse. -/
def badBoundsWidget : Widget :=
  { className := "android.widget.Button", text := "", resourceId := "",
    clickable := "true", bounds := "garbage" }

/-- A clickable widget with well-formed bounds. -/
def loginButtonWidget : Widget :=
  { className := "android.widget.Button", text := "Login",
    resourceId := "id/login", clickable := "true", bounds := "[0,0][100,50]" }

/-- A view hierarchy none of whose nodes carries a `bounds` attribute. -/
def noBoundsRoot : XmlNode :=
  XmlNode.mk [("class", "android.view.View")]
    (XmlForest.cons (XmlNode.mk [("text", "hello")] XmlForest.nil) XmlForest.nil)

/-- A model environment whose collaborators always succeed. -/
def demoMllmEnv : MllmEnv :=
  { decodeImage := fun _ => Option.some ()
    generate := fun _ => Except.ok "" }

/-- An application environment in which the uploaded screenshot file does
not exist on disk. -/
def missingShotEnv : AppEnv :=
  { analyzerOk := true
    fileExists := fun _ => false
    imreadOk := fun _ => false
    nlp := Option.some (fun s => [s])
    mllm := demoMllmEnv }

/-! ## Helper lemmas -/

theorem findComplaintSentence_eq_find? (ss : List String) :
    findComplaintSentence ss =
      ss.find? (fun s => keywords.any (fun kw => pyInStr kw s)) := by
  induction ss with
  | nil => rfl
  | cons s t ih =>
    by_cases h : keywords.any (fun kw => pyInStr kw s) <;>
      simp [findComplaintSentence, List.find?_cons, h, ih]

theorem foldl_appendWidgets (l : List XmlNode) (acc : List Widget) :
    l.foldl
      (fun elements node =>
        if hasAttr node.attrs "bounds" then elements ++ [mkWidget node] else elements)
      acc =
      acc ++ (l.filter (fun n => hasAttr n.attrs "bounds")).map mkWidget := by
  induction l generalizing acc with
  | nil => simp
  | cons n t ih =>
    by_cases h : hasAttr n.attrs "bounds" <;>
      simp [List.foldl_cons, List.filter_cons, h, ih]

theorem strData_append (a b : String) : (a ++ b).data = a.data ++ b.data := rfl

theorem jsonLoads_empty : jsonLoads "" = Option.none := rfl

theorem mismatchDetectedValid_eq_true (v : PyValue) :
    mismatchDetectedValid v = true ↔
      ∃ md, v = PyValue.str md ∧ (pyLower md = "yes" ∨ pyLower md = "no") := by
  cases v <;> simp [mismatchDetectedValid]

theorem isinstance_int_float_eq_true (v : PyValue) :
    isinstance_int_float v = true ↔
      isNumericValue v = true ∨ ∃ b, v = PyValue.bool b := by
  cases v <;> simp [isinstance_int_float, isNumericValue]

/-- The acceptance path of `parse_llm_output`: a candidate that parses to
a dict passing all three checks is returned unchanged. -/
theorem parse_llm_output_accepts (s : String) (d : List (String × PyValue))
    (hparse : jsonLoads (jsonCandidate s) = Option.some (PyValue.dict d))
    (hkeys : requiredKeys.all (dictHasKey d) = true)
    (hmd : mismatchDetectedValid (dictGet d "mismatch_detected") = true)
    (hcs : isinstance_int_float (dictGet d "confidence_score") = true) :
    parse_llm_output s = PyValue.dict d := by
  have hne : ¬(jsonCandidate s = "") := by
    intro h
    rw [h, jsonLoads_empty] at hparse
    exact Option.noConfusion hparse
  simp [parse_llm_output, hne, hparse, hkeys, hmd, hcs]

/-- The rejection path of `parse_llm_output`: if the candidate does not
parse to a dict passing all three checks, the error record comes back. -/
theorem parse_llm_output_rejects (s : String)
    (h : ∀ d, jsonLoads (jsonCandidate s) = Option.some (PyValue.dict d) →
      requiredKeys.all (dictHasKey d) = false ∨
      mismatchDetectedValid (dictGet d "mismatch_detected") = false ∨
      isinstance_int_float (dictGet d "confidence_score") = false) :
    parse_llm_output s = parseErrorRecord s := by
  by_cases he : jsonCandidate s = ""
  · simp [parse_llm_output, he]
  · cases hj : jsonLoads (jsonCandidate s) with
    | none => simp [parse_llm_output, he, hj]
    | some v =>
      cases v with
      | dict d =>
        rcases h d hj with hbad | hbad | hbad <;>
          simp [parse_llm_output, he, hj, hbad]
      | pyNone => simp [parse_llm_output, he, hj]
      | bool b => simp [parse_llm_output, he, hj]
      | int n => simp [parse_llm_output, he, hj]
      | float q => simp [parse_llm_output, he, hj]
      | str t => simp [parse_llm_output, he, hj]
      | list xs => simp [parse_llm_output, he, hj]

theorem findCharAux_of_not_mem (c : Char) (l : List Char) (i : Int)
    (h : c ∉ l) : findCharAux c l i = -1 := by
  induction l generalizing i with
  | nil => rfl
  | cons x t ih =>
    simp only [findCharAux]
    rw [if_neg, ih (i + 1) (fun hm => h (List.mem_cons_of_mem _ hm))]
    intro hx
    exact h (hx ▸ List.mem_cons_self x t)

theorem lastIdxOf_drop (c : Char) (l : List Char) (i : Nat)
    (h : lastIdxOf c l = Option.some i) : ∃ t, l.drop i = c :: t := by
  induction l generalizing i with
  | nil => simp [lastIdxOf] at h
  | cons x xs ih =>
    simp only [lastIdxOf] at h
    cases hx : lastIdxOf c xs with
    | some j =>
      rw [hx] at h
      injection h with h
      obtain ⟨t, ht⟩ := ih j hx
      exact ⟨t, by rw [← h, List.drop_succ_cons, ht]⟩
    | none =>
      rw [hx] at h
      by_cases hxc : x = c
      · rw [if_pos hxc] at h
        injection h with h
        exact ⟨xs, by rw [← h, List.drop_zero, hxc]⟩
      · rw [if_neg hxc] at h
        exact Option.noConfusion h

theorem pySlice_neg_one_zero (s : String) : pySlice s (-1) 0 = "" := by
  simp only [pySlice]
  have h2 : (((if (0 : Int) < 0 then max ((s.data.length : Int) + 0) 0
      else min 0 (s.data.length : Int))) -
      (if (-1 : Int) < 0 then max ((s.data.length : Int) + -1) 0
       else min (-1) (s.data.length : Int))).toNat = 0 := by
    rw [if_neg (by norm_num), if_pos (by norm_num)]
    omega
  rw [h2]
  rfl

theorem jsonCandidate_no_open (s : String) (h : braceOpen ∉ s.data) :
    jsonCandidate s = "" ∨ jsonCandidate s = String.mk [braceClose] := by
  have hfind : pyFindChar s braceOpen = -1 := findCharAux_of_not_mem braceOpen s.data 0 h
  unfold jsonCandidate pyRfindChar
  rw [hfind]
  cases hr : lastIdxOf braceClose s.data with
  | none =>
    left
    show pySlice s (-1) (-1 + 1) = ""
    have he : (-1 : Int) + 1 = 0 := by norm_num
    rw [he]
    exact pySlice_neg_one_zero s
  | some i =>
    obtain ⟨t, hdrop⟩ := lastIdxOf_drop braceClose s.data i hr
    have hi : i < s.data.length := by
      by_contra hge
      push_neg at hge
      rw [List.drop_eq_nil_of_le hge] at hdrop
      exact List.noConfusion hdrop
    by_cases hlast : i = s.data.length - 1
    · right
      simp only [pySlice]
      have ha : (if (-1 : Int) < 0 then
          max ((s.data.length : Int) + -1) 0 else min (-1) (s.data.length : Int)) =
          (s.data.length : Int) - 1 := by
        rw [if_pos (by norm_num)]
        omega
      have hb : (if ((i : Int) + 1) < 0 then
          max ((s.data.length : Int) + ((i : Int) + 1)) 0
          else min ((i : Int) + 1) (s.data.length : Int)) = (s.data.length : Int) := by
        rw [if_neg (by omega)]
        omega
      rw [ha, hb]
      have h1 : ((s.data.length : Int) - ((s.data.length : Int) - 1)).toNat = 1 := by
        omega
      have h2 : ((s.data.length : Int) - 1).toNat = i := by omega
      rw [h1, h2, hdrop]
      rfl
    · left
      simp only [pySlice]
      have ha : (if (-1 : Int) < 0 then
          max ((s.data.length : Int) + -1) 0 else min (-1) (s.data.length : Int)) =
          (s.data.length : Int) - 1 := by
        rw [if_pos (by norm_num)]
        omega
      have hb : (if ((i : Int) + 1) < 0 then
          max ((s.data.length : Int) + ((i : Int) + 1)) 0
          else min ((i : Int) + 1) (s.data.length : Int)) = (i : Int) + 1 := by
        rw [if_neg (by omega)]
        omega
      have hz : (((i : Int) + 1) - ((s.data.length : Int) - 1)).toNat = 0 := by omega
      rw [ha, hb, hz]
      simp

theorem boxOfLabeled_label (a : Nat) (w : Widget) : (boxOfLabeled a w).label = a := by
  cases hb : parseBounds w.bounds with
  | none => simp [boxOfLabeled, hb]
  | some v =>
    obtain ⟨x1, y1, x2, y2⟩ := v
    simp [boxOfLabeled, hb]

theorem zipWith_boxOfLabeled_labels (l1 : List Nat) (l2 : List Widget)
    (h : l1.length = l2.length) :
    (List.zipWith boxOfLabeled l1 l2).map DrawnBox.label = l1 := by
  induction l1 generalizing l2 with
  | nil => simp
  | cons a t ih =>
    cases l2 with
    | nil => simp at h
    | cons w ws =>
      simp only [List.zipWith_cons_cons, List.map_cons, boxOfLabeled_label,
        ih ws (by simpa using h)]

theorem annotateLoop_eq_spec (es : List Widget) (c : Nat) :
    annotateLoop c es =
      (List.zipWith describeWidget (List.range' c (selectedWidgets es).length)
        (selectedWidgets es),
       List.zipWith boxOfLabeled (List.range' c (selectedWidgets es).length)
        (selectedWidgets es)) := by
  induction es generalizing c with
  | nil => simp [annotateLoop, selectedWidgets]
  | cons w ws ih =>
    by_cases hq : qualifiesWidget w = true
    · have hq' : (decide (w.clickable = "true") || decide (w.text ≠ "")) = true := hq
      cases hb : parseBounds w.bounds with
      | some v =>
        obtain ⟨x1, y1, x2, y2⟩ := v
        have hsel : selectedWidgets (w :: ws) = w :: selectedWidgets ws := by
          simp [selectedWidgets, List.filter_cons, hq, hb]
        have hbox : boxOfLabeled c w =
            { label := c, x1 := x1, y1 := y1, x2 := x2, y2 := y2,
              clickable := w.clickable = "true" } := by
          simp [boxOfLabeled, hb]
        rw [hsel]
        have hqp : w.clickable = "true" ∨ ¬(w.text = "") := by
          simpa [qualifiesWidget] using hq
        simp [annotateLoop, hq', hb, ih (c + 1), List.range'_succ, hbox]
        intro h1 h2
        rcases hqp with hp | hp
        · exact absurd hp h1
        · exact absurd h2 hp
      | none =>
        have hsel : selectedWidgets (w :: ws) = selectedWidgets ws := by
          simp [selectedWidgets, List.filter_cons, hq, hb]
        rw [hsel]
        simp [annotateLoop, hq', hb, ih c]
    · have hq' : (decide (w.clickable = "true") || decide (w.text ≠ "")) = false := by
        have := hq
        simp only [qualifiesWidget] at this
        simpa using this
      have hsel : selectedWidgets (w :: ws) = selectedWidgets ws := by
        simp [selectedWidgets, List.filter_cons, hq]
      have hqn : ¬(w.clickable = "true") ∧ w.text = "" := by
        simpa [qualifiesWidget] using hq
      rw [hsel]
      simp [annotateLoop, hq', ih c]
      intro h
      rcases h with hp | hp
      · exact absurd hp hqn.1
      · exact absurd hqn.2 hp

/-! ## Claim theorems -/

/-- C5: for every list of sentences, `extract_functional_snippets`
returns the first sentence containing any keyword of the fixed set as a
substring, the first sentence when no sentence contains a keyword, and
the empty string for the empty list; in particular, on the segmented
review `["the app crashed.", "i love the colors."]` it returns
`"the app crashed."`. -/
theorem extract_snippets_spec (sentences : List String) :
    extract_functional_snippets sentences =
      (match sentences.find? (fun s => keywords.any (fun kw => pyInStr kw s)) with
       | Option.some s => s
       | Option.none => sentences.headD "") ∧
    extract_functional_snippets [] = "" ∧
    extract_functional_snippets ["the app crashed.", "i love the colors."] =
      "the app crashed." := by
  refine ⟨?_, rfl, by rfl⟩
  cases sentences with
  | nil => rfl
  | cons s t =>
    simp only [extract_functional_snippets, findComplaintSentence_eq_find?,
      List.isEmpty_cons, Bool.false_eq_true, if_false]

/-- C6: `parse_xml_hierarchy` produces exactly one widget record per
bounds-carrying node, in document order, with absent attributes
defaulted to `class="N/A"`, `text=""`, `resource-id=""`,
`clickable="false"`; bounds-less nodes are skipped; a missing or
unparseable file yields the empty sequence; and a hierarchy with zero
bounds-carrying nodes yields the empty sequence. -/
theorem parse_xml_hierarchy_spec (xml_file : XmlFile) :
    parse_xml_hierarchy xml_file = widgetExtractorSpec xml_file ∧
    parse_xml_hierarchy XmlFile.missing = [] ∧
    parse_xml_hierarchy XmlFile.unparseable = [] ∧
    (∀ root, xml_file = XmlFile.parsed root →
      (∀ n ∈ iterNodes root, hasAttr n.attrs "bounds" = false) →
      parse_xml_hierarchy xml_file = []) := by
  refine ⟨?_, rfl, rfl, ?_⟩
  · cases xml_file with
    | missing => rfl
    | unparseable => rfl
    | parsed root =>
      simp only [parse_xml_hierarchy, widgetExtractorSpec, foldl_appendWidgets,
        List.nil_append]
      rfl
  · intro root hx hnone
    subst hx
    simp only [parse_xml_hierarchy, foldl_appendWidgets, List.nil_append]
    have : (iterNodes root).filter (fun n => hasAttr n.attrs "bounds") = [] := by
      apply List.filter_eq_nil_iff.mpr
      intro n hn
      simp [hnone n hn]
    simp [this]

/-- C6 witness: a hierarchy with two nodes, neither carrying `bounds`,
yields the empty widget sequence. -/
theorem parse_xml_hierarchy_spec_witness :
    parse_xml_hierarchy (XmlFile.parsed noBoundsRoot) = [] :=
  (parse_xml_hierarchy_spec (XmlFile.parsed noBoundsRoot)).2.2.2 noBoundsRoot rfl
    (by decide)

/-- C7: the prompt built by `construct_prompt` contains the review
snippet verbatim inside double quotes, and contains the newline-joined
widget descriptions verbatim — or the literal fallback
`"No widget details extracted."` when the list is empty. -/
theorem construct_prompt_embeds (widget_details : List String) (review_snippet : String) :
    containsStr (construct_prompt widget_details review_snippet)
      ("\"" ++ review_snippet ++ "\"") ∧
    containsStr (construct_prompt widget_details review_snippet)
      (if widget_details.isEmpty then "No widget details extracted."
       else String.intercalate "\n" widget_details) := by
  constructor
  · refine ⟨promptPart1.data, (promptPart2 ++
      (if widget_details.isEmpty then "No widget details extracted."
       else String.intercalate "\n" widget_details) ++ promptPart3).data, ?_⟩
    by_cases h : widget_details.isEmpty <;>
      simp [construct_prompt, h, strData_append, List.append_assoc]
  · refine ⟨(promptPart1 ++ "\"" ++ review_snippet ++ "\"" ++ promptPart2).data,
      promptPart3.data, ?_⟩
    by_cases h : widget_details.isEmpty <;>
      simp [construct_prompt, h, strData_append, List.append_assoc]

/-- C10: whenever `image_path` is `None`/empty or the review snippet is
empty, `analyze_ui_review_pair` returns the
`"Missing image path or review snippet."` error record immediately, with
an empty effect trace — the image is never opened, no prompt is built and
the model is never invoked, for every environment. -/
theorem analyze_missing_inputs (env : MllmEnv) (image_path : Option String)
    (widget_details : List String) (review_snippet : String)
    (h : optStrFalsy image_path = true ∨ review_snippet = "") :
    analyze_ui_review_pair env image_path widget_details review_snippet =
      (PyValue.dict [("error", PyValue.str "Missing image path or review snippet.")],
       []) := by
  rcases h with h | h <;> simp [analyze_ui_review_pair, h]

/-- C10 witness: a present image path but an empty review snippet returns
the missing-input record with no effects performed. -/
theorem analyze_missing_inputs_witness :
    analyze_ui_review_pair demoMllmEnv (Option.some "img.png") [] "" =
      (PyValue.dict [("error", PyValue.str "Missing image path or review snippet.")],
       []) :=
  analyze_missing_inputs demoMllmEnv (Option.some "img.png") [] "" (Or.inr rfl)

/-- C1: whenever the slice from the first opening brace to the last
closing brace of the raw output parses as a JSON object with the four
required keys, `mismatch_detected` a case-insensitive yes/no string and
`confidence_score` numeric, `parse_llm_output` returns exactly that
parsed object, unchanged. -/
theorem parse_llm_output_valid_passthrough (s : String) (d : List (String × PyValue))
    (hparse : jsonLoads (jsonCandidate s) = Option.some (PyValue.dict d))
    (hkeys : ∀ k ∈ requiredKeys, dictHasKey d k = true)
    (hmd : ∃ md, dictGet d "mismatch_detected" = PyValue.str md ∧
      (pyLower md = "yes" ∨ pyLower md = "no"))
    (hcs : isNumericValue (dictGet d "confidence_score") = true) :
    parse_llm_output s = PyValue.dict d := by
  apply parse_llm_output_accepts s d hparse
  · exact List.all_eq_true.mpr (fun k hk => hkeys k hk)
  · rcases hmd with ⟨md, hget, hyn⟩
    rw [hget]
    simp only [mismatchDetectedValid]
    rcases hyn with h | h <;> simp [h]
  · cases hv : dictGet d "confidence_score" <;>
      rw [hv] at hcs <;> simp_all [isNumericValue, isinstance_int_float]

/-- C1 witness: the spec's example input — prose around a complete
four-field object — comes back as exactly the enclosed object. -/
theorem parse_llm_output_valid_passthrough_witness :
    parse_llm_output sureInput = PyValue.dict sureDict :=
  parse_llm_output_valid_passthrough sureInput sureDict (by rfl)
    (by decide) ⟨"Yes", by rfl, Or.inl (by rfl)⟩ (by rfl)

/-- C2 counterexample: on a raw output whose JSON object has all four
keys, a valid `mismatch_detected`, but `confidence_score` equal to the
JSON boolean `true` — not numeric — `parse_llm_output` does NOT return
an error record: it returns the parsed object (Python's
`isinstance(True, (int, float))` holds because `bool` is an `int`
subclass), and the result has no `raw_output` key. -/
theorem parse_llm_output_bool_confidence_cex :
    jsonLoads (jsonCandidate boolConfidenceInput) =
      Option.some (PyValue.dict boolConfidenceDict) ∧
    (∀ k ∈ requiredKeys, dictHasKey boolConfidenceDict k = true) ∧
    isNumericValue (dictGet boolConfidenceDict "confidence_score") = false ∧
    parse_llm_output boolConfidenceInput = PyValue.dict boolConfidenceDict ∧
    pyHasKey (parse_llm_output boolConfidenceInput) "raw_output" = false :=
  ⟨by rfl, by decide, by rfl, by rfl, by rfl⟩

/-- C2 (amended): if the extracted candidate fails to parse as JSON (or
parses to a non-object), or any of the four required keys is absent, or
`mismatch_detected` is not a case-insensitive yes/no string, or
`confidence_score` is neither numeric nor boolean (Python's
`isinstance(x, (int, float))` counts booleans as numbers), then
`parse_llm_output` returns the error record carrying the full raw text
under `raw_output`; being a total function, it never raises. -/
theorem parse_llm_output_error_record (s : String)
    (h : ∀ d, jsonLoads (jsonCandidate s) = Option.some (PyValue.dict d) →
      ¬((∀ k ∈ requiredKeys, dictHasKey d k = true) ∧
        (∃ md, dictGet d "mismatch_detected" = PyValue.str md ∧
          (pyLower md = "yes" ∨ pyLower md = "no")) ∧
        (isNumericValue (dictGet d "confidence_score") = true ∨
         (∃ b, dictGet d "confidence_score" = PyValue.bool b)))) :
    parse_llm_output s = parseErrorRecord s := by
  apply parse_llm_output_rejects
  intro d hd
  by_cases hk : requiredKeys.all (dictHasKey d) = true
  · by_cases hm : mismatchDetectedValid (dictGet d "mismatch_detected") = true
    · by_cases hc : isinstance_int_float (dictGet d "confidence_score") = true
      · exfalso
        apply h d hd
        exact ⟨List.all_eq_true.mp hk, (mismatchDetectedValid_eq_true _).mp hm,
          (isinstance_int_float_eq_true _).mp hc⟩
      · exact Or.inr (Or.inr (by simpa using hc))
    · exact Or.inr (Or.inl (by simpa using hm))
  · exact Or.inl (by simpa using hk)

/-- C2 witness: an object lacking the `rationale` key yields the error
record carrying the raw text. -/
theorem parse_llm_output_error_record_witness :
    parse_llm_output missingRationaleInput = parseErrorRecord missingRationaleInput := by
  apply parse_llm_output_error_record
  intro d hd
  rw [show jsonLoads (jsonCandidate missingRationaleInput) =
    Option.some (PyValue.dict
      [("mismatch_detected", PyValue.str "Yes"),
       ("confidence_score", PyValue.float (9 / 10 : ℚ)),
       ("mismatch_type", PyValue.str "Visual Glitch")]) from by rfl] at hd
  injection hd with hd
  injection hd with hd
  subst hd
  intro hcontra
  have := hcontra.1 "rationale" (by decide)
  simp [dictHasKey] at this

/-- C8: `parse_llm_output` accepts an object with the four required keys,
a case-insensitive yes/no `mismatch_detected` and a numeric
`confidence_score`, for EVERY value of `mismatch_type` (any type) and
regardless of the presence, type or value of `relevant_widget_id` —
those fields are not validated beyond the key presence of
`mismatch_type`. -/
theorem parse_llm_output_lenient_fields (s : String) (md : String)
    (cs mt r : PyValue) (rid : Option PyValue)
    (hmd : pyLower md = "yes" ∨ pyLower md = "no")
    (hcs : isNumericValue cs = true)
    (hparse : jsonLoads (jsonCandidate s) =
      Option.some (PyValue.dict (mkAnalysisDict md cs mt r rid))) :
    parse_llm_output s = PyValue.dict (mkAnalysisDict md cs mt r rid) := by
  apply parse_llm_output_accepts s _ hparse
  · cases rid <;> simp [mkAnalysisDict, requiredKeys, dictHasKey]
  · have hget : dictGet (mkAnalysisDict md cs mt r rid) "mismatch_detected" =
        PyValue.str md := by
      cases rid <;> simp [mkAnalysisDict, dictGet, List.find?_cons]
    rw [hget]
    simp only [mismatchDetectedValid]
    rcases hmd with h | h <;> simp [h]
  · have hget : dictGet (mkAnalysisDict md cs mt r rid) "confidence_score" = cs := by
      cases rid <;> simp [mkAnalysisDict, dictGet, List.find?_cons]
    rw [hget]
    cases cs <;> simp_all [isNumericValue, isinstance_int_float]

/-- C8 witness: a numeric `mismatch_type`, a `null` rationale and a
list-valued `relevant_widget_id` are all accepted unchanged. -/
theorem parse_llm_output_lenient_fields_witness :
    parse_llm_output lenientInput =
      PyValue.dict (mkAnalysisDict "NO" (PyValue.int 1) (PyValue.int 12)
        PyValue.pyNone (Option.some (PyValue.list []))) :=
  parse_llm_output_lenient_fields lenientInput "NO" (PyValue.int 1) (PyValue.int 12)
    PyValue.pyNone (Option.some (PyValue.list [])) (Or.inr (by rfl)) (by rfl) (by rfl)

/-- C9 counterexample: the input `"abc\x7d"` contains no opening brace,
yet the extracted JSON candidate is the one-character string `"\x7d"` —
not the empty string the claim asserts (Python's `find` returns `-1` and
`s[-1 : rfind+1]` then starts at the last character); the function still
returns the error record. -/
theorem jsonCandidate_stray_close_cex :
    braceOpen ∉ strayCloseInput.data ∧
    jsonCandidate strayCloseInput = String.mk [braceClose] ∧
    ¬(jsonCandidate strayCloseInput = "") ∧
    parse_llm_output strayCloseInput = parseErrorRecord strayCloseInput :=
  ⟨by decide, by rfl, by decide, by rfl⟩

/-- C9 (amended): for every raw output containing no opening brace, the
extracted JSON candidate is the empty string — except when the raw text
ends with a closing brace, in which case it is the one-character string
`"\x7d"` (Python's `find` returns `-1`, which slicing interprets as the
last character) — and in either case `parse_llm_output` returns the
error record. -/
theorem parse_llm_output_no_open_brace (s : String) (h : braceOpen ∉ s.data) :
    (jsonCandidate s = "" ∨ jsonCandidate s = String.mk [braceClose]) ∧
    parse_llm_output s = parseErrorRecord s := by
  refine ⟨jsonCandidate_no_open s h, ?_⟩
  rcases jsonCandidate_no_open s h with hc | hc
  · simp [parse_llm_output, hc]
  · have h1 : ¬(String.mk [braceClose] = "") := by decide
    have h2 : jsonLoads (String.mk [braceClose]) = Option.none := by rfl
    simp [parse_llm_output, hc, h1, h2]

/-- C9 witness: a raw output with no brace at all has the empty candidate
and produces the error record. -/
theorem parse_llm_output_no_open_brace_witness :
    (jsonCandidate noBraceInput = "" ∨ jsonCandidate noBraceInput = String.mk [braceClose]) ∧
    parse_llm_output noBraceInput = parseErrorRecord noBraceInput :=
  parse_llm_output_no_open_brace noBraceInput (by decide)

/-- C3 counterexample: a widget with `clickable = "true"` — which the
claim says must receive a label and a box — but with unparseable bounds
receives neither: the annotation loop assigns no label, appends no
description and draws no box, and the annotated result of the screenshot
carries an empty description list. -/
theorem annotate_bad_bounds_cex :
    qualifiesWidget badBoundsWidget = true ∧
    parseBounds badBoundsWidget.bounds = Option.none ∧
    annotateLoop 1 [badBoundsWidget] = ([], []) ∧
    annotate_screenshot (fun _ => true) (fun _ => true) "shot.png" [badBoundsWidget] =
      Option.some ("annotated_" ++ "shot.png", []) :=
  ⟨by rfl, by rfl, by rfl, by rfl⟩

/-- C3 (amended): the widgets that receive labels and boxes are exactly
the qualifying ones (`clickable = "true"` or non-empty text) WHOSE BOUNDS
PARSE, in original traversal order, with strictly increasing labels
starting at 1; a qualifying widget with unparseable bounds is skipped
silently, and a non-qualifying widget receives no label and no box.  On
a readable screenshot, `annotate_screenshot` returns the saved path and
exactly those widgets' description strings. -/
theorem annotate_screenshot_labels (es : List Widget) (fe ir : String → Bool)
    (p : String) (hfe : fe p = true) (hir : ir p = true) :
    annotateLoop 1 es = annotateSpec es ∧
    ((annotateLoop 1 es).2).map DrawnBox.label =
      List.range' 1 (selectedWidgets es).length ∧
    annotate_screenshot fe ir p es =
      Option.some ("annotated_" ++ p, (annotateSpec es).1) := by
  have h1 := annotateLoop_eq_spec es 1
  refine ⟨by rw [h1]; rfl, ?_, ?_⟩
  · rw [h1]
    exact zipWith_boxOfLabeled_labels _ _ (by simp)
  · simp [annotate_screenshot, hfe, hir, h1, annotateSpec]

/-- C3 witness: a single clickable widget with well-formed bounds is
annotated with label 1. -/
theorem annotate_screenshot_labels_witness :
    annotate_screenshot (fun _ => true) (fun _ => true) "shot.png" [loginButtonWidget] =
      Option.some ("annotated_" ++ "shot.png", (annotateSpec [loginButtonWidget]).1) :=
  (annotate_screenshot_labels [loginButtonWidget] (fun _ => true) (fun _ => true)
    "shot.png" rfl rfl).2.2

/-- C4: on a missing (or unreadable) screenshot file,
`annotate_screenshot` does return the null result — but the pipeline
caller does NOT abort with the clear
`"Failed to process the uploaded screenshot."` message: the tuple
unpacking on app.py line 50 raises
`TypeError: cannot unpack non-iterable NoneType object` before the
line-52 check runs, so the request crashes with an unrelated
exception. -/
theorem run_vipra_unpack_typeerror :
    annotate_screenshot missingShotEnv.fileExists missingShotEnv.imreadOk
      "shot.png" [] = Option.none ∧
    run_vipra_ui_analysis missingShotEnv (Option.some "shot.png")
      "The login button does nothing when I tap it." Option.none =
      GrOutcome.pyException "TypeError" "cannot unpack non-iterable NoneType object" ∧
    isGrError
      (run_vipra_ui_analysis missingShotEnv (Option.some "shot.png")
        "The login button does nothing when I tap it." Option.none) = false :=
  ⟨by rfl, by rfl, by rfl⟩

end Vipra
